import Mathlib

/- Verification development for the fswatch debounced file watcher
   (package filewatch, watcher.go).  The definitions below are a shallow
   embedding of the Go source: the debounce map becomes an association
   list from path to channel id, the per-path worker goroutine
   (debounceFile) becomes a step function on its buffered event plus a
   timed run function over a list of arrivals, and the dispatch path
   (handleEvent, debounceLoop, Close) becomes explicit state-passing
   functions.  Machine concerns that the claims need (lock/send ordering,
   channel-close state) are recorded as explicit action traces and flags. -/

/-- Filesystem event as delivered by the raw event source (fsnotify.Event):
a path and a bitmask operation. -/
structure Event where
  name : String
  op : Nat
deriving DecidableEq

/-- fsnotify.Create bit. -/
def opCreate : Nat := 1

/-- fsnotify.Write bit. -/
def opWrite : Nat := 2

/-- fsnotify.Remove bit. -/
def opRemove : Nat := 4

/-- fsnotify.Rename bit. -/
def opRename : Nat := 8

/-- fsnotify.Chmod bit (an operation the debounce logic never matches on). -/
def opChmod : Nat := 16

/-- Bit test written throughout watcher.go as `event.Op&flag == flag`. -/
def hasOp (e : Event) (flag : Nat) : Bool := e.op &&& flag == flag

/-- The debounce map `map[string]chan fsnotify.Event`, embedded as an
association list from path to channel id. -/
abbrev DebounceMap := List (String × Nat)

/-- Go map lookup `ch, ok := m[key]`. -/
def mapLookup : DebounceMap → String → Option Nat
  | [], _ => none
  | (k, v) :: rest, key => if k == key then some v else mapLookup rest key

/-- Go `delete(m, key)`: the key is no longer present afterwards. -/
def mapDelete : DebounceMap → String → DebounceMap
  | [], _ => []
  | (k, v) :: rest, key =>
      if k == key then mapDelete rest key else (k, v) :: mapDelete rest key

/-- Go map assignment `m[key] = v` (overwrites any previous binding). -/
def mapInsert (m : DebounceMap) (key : String) (v : Nat) : DebounceMap :=
  (key, v) :: mapDelete m key

/-- Result of one iteration of debounceFile's select loop on a received
event: either the loop continues (still pending, timer re-armed by the
fresh time.After of the next iteration) with a possibly updated buffered
event and map, or the goroutine returns, leaving a final map and the
events it published on w.Events. -/
inductive StepResult where
  | continued (event : Event) (tbl : DebounceMap)
  | done (tbl : DebounceMap) (emitted : List Event)
deriving DecidableEq

/-- True exactly when the step ended the worker goroutine. -/
def StepResult.isDone : StepResult → Bool
  | .done _ _ => true
  | .continued _ _ => false

/-- The map left behind by a step. -/
def stepTbl : StepResult → DebounceMap
  | .continued _ t => t
  | .done t _ => t

/-- The `case newEvent := <-ch` arm of debounceFile (watcher.go lines
147-177), translated literally.  Note that the source tests the bits of
the buffered `event`, not of the arriving `newEvent`:
if event.Op has the Remove bit, the worker deletes its entry and returns,
publishing newEvent when IgnoreTemporaryFiles is false; else if event.Op
has the Rename bit, the worker moves its map entry to newEvent.Name and
keeps the Create payload under the new name (or adopts newEvent) and
continues; otherwise the arriving event is dropped and the loop continues
(which re-arms the time.After timer). -/
def workerRecv (ignoreTemporaryFiles : Bool) (ch : Nat) (event : Event)
    (tbl : DebounceMap) (newEvent : Event) : StepResult :=
  if hasOp event opRemove then
    .done (mapDelete tbl event.name)
      (if !ignoreTemporaryFiles then [newEvent] else [])
  else if hasOp event opRename then
    if hasOp event opCreate then
      .continued { event with name := newEvent.name }
        (mapInsert (mapDelete tbl event.name) newEvent.name ch)
    else
      .continued newEvent
        (mapInsert (mapDelete tbl event.name) newEvent.name ch)
  else
    .continued event tbl

/-- Outcome of a whole debounceFile run: final map, events published on
w.Events, the time at which the goroutine returned, and the path whose
map entry it deleted on its way out. -/
structure RunResult where
  tbl : DebounceMap
  emitted : List Event
  endTime : Nat
  finalName : String
deriving DecidableEq

/-- Timed run of the debounceFile goroutine (watcher.go lines 144-188).
The worker starts at time now with the spawning event buffered; arrivals
is the time-stamped sequence of events later sent on its channel.  Each
loop iteration waits on the channel and on a fresh
time.After(debounceDuration): an arrival strictly before now + D wins the
select and is handled by workerRecv; otherwise the timeout arm runs,
deleting the worker's entry and publishing the buffered event at
now + D. -/
def debounceFile (ignoreTemporaryFiles : Bool) (D ch : Nat) (event : Event)
    (tbl : DebounceMap) (now : Nat) : List (Nat × Event) → RunResult
  | [] => ⟨mapDelete tbl event.name, [event], now + D, event.name⟩
  | (t, newEvent) :: rest =>
    if t < now + D then
      match workerRecv ignoreTemporaryFiles ch event tbl newEvent with
      | .done tbl2 out => ⟨tbl2, out, t, event.name⟩
      | .continued e2 tbl2 =>
          debounceFile ignoreTemporaryFiles D ch e2 tbl2 t rest
    else
      ⟨mapDelete tbl event.name, [event], now + D, event.name⟩

/-- Primitive actions of handleEvent and debounceFile that the locking
claims talk about: taking and releasing debounceMapMu, sending on a
worker's inbound channel, and sending on the w.Events sink. -/
inductive LockAction where
  | lock
  | unlock
  | sendToWorker
  | emitEvent
deriving DecidableEq

/-- Scanner deciding whether a trace performs a channel send or sink
emission while the mutex is held. -/
def sendUnderLock : List LockAction → Bool → Bool
  | [], _ => false
  | .lock :: rest, _ => sendUnderLock rest true
  | .unlock :: rest, _ => sendUnderLock rest false
  | .sendToWorker :: rest, held => held || sendUnderLock rest held
  | .emitEvent :: rest, held => held || sendUnderLock rest held

/-- Effects of one handleEvent call: the updated map, the worker spawned
(with its fresh channel id), the send performed on an existing worker's
channel, the events emitted directly on w.Events, and the ordered trace
of lock/send actions. -/
structure HandleResult where
  tbl : DebounceMap
  spawned : Option (Event × Nat)
  sentTo : Option (Nat × Event)
  emitted : List Event
  trace : List LockAction
deriving DecidableEq

/-- handleEvent (watcher.go lines 110-142), translated literally.  For a
Write/Create event the map is consulted under the lock; on a miss a fresh
channel is inserted and a debounceFile goroutine spawned, on a hit the
event is sent on the existing channel before the mutex is released (the
send sits between Lock and Unlock in the source).  For every other
operation the lookup happens under the lock, the lock is released, and
the event is then either forwarded to the worker or published directly
on w.Events.  freshCh stands for the `make(chan fsnotify.Event)` result. -/
def handleEvent (tbl : DebounceMap) (freshCh : Nat) (event : Event) :
    HandleResult :=
  if hasOp event opWrite || hasOp event opCreate then
    match mapLookup tbl event.name with
    | none =>
        { tbl := mapInsert tbl event.name freshCh
          spawned := some (event, freshCh)
          sentTo := none
          emitted := []
          trace := [.lock, .unlock] }
    | some ch =>
        { tbl := tbl
          spawned := none
          sentTo := some (ch, event)
          emitted := []
          trace := [.lock, .sendToWorker, .unlock] }
  else
    match mapLookup tbl event.name with
    | some ch =>
        { tbl := tbl
          spawned := none
          sentTo := some (ch, event)
          emitted := []
          trace := [.lock, .unlock, .sendToWorker] }
    | none =>
        { tbl := tbl
          spawned := none
          sentTo := none
          emitted := [event]
          trace := [.lock, .unlock, .emitEvent] }

/-- Lock/send trace of the `case newEvent := <-ch` arm of debounceFile:
the Remove branch deletes under the lock, unlocks, and only then (when
IgnoreTemporaryFiles is false) publishes on w.Events; the Rename branch
mutates the map entirely under the lock with no send; the fall-through
branch touches neither the lock nor a channel. -/
def workerRecvTrace (ignoreTemporaryFiles : Bool) (event : Event) :
    List LockAction :=
  if hasOp event opRemove then
    [.lock, .unlock] ++ (if !ignoreTemporaryFiles then [.emitEvent] else [])
  else if hasOp event opRename then
    [.lock, .unlock]
  else
    []

/-- Lock/send trace of debounceFile's timeout arm: delete under the lock,
unlock, then publish the buffered event. -/
def workerTimeoutTrace : List LockAction := [.lock, .unlock, .emitEvent]

/-- Events of the raw stream that belong to one path (the subsequence a
single worker is concerned with). -/
def eventsForPath (path : String) (l : List Event) : List Event :=
  l.filter (fun e => e.name == path)

/-- Delivery model of debounceLoop (watcher.go line 101): every raw event
is handled in its own goroutine (`go w.handleEvent(event)`), and nothing
orders those goroutines, so the order in which their serialized effects
(mutex acquisition, channel sends) occur is an arbitrary permutation of
the arrival order.  handlerSchedule raw sched holds when sched is one
possible effect order for the raw arrival sequence raw. -/
def handlerSchedule (raw sched : List Event) : Prop := List.Perm sched raw

/-- Shutdown-relevant state of a Watcher: the isClosed flag, whether
closeCh has been closed, and how many times the underlying
fsnotify watcher's Close has been invoked. -/
structure CloseState where
  isClosed : Bool
  closeChClosed : Bool
  underlyingCloseCalls : Nat
deriving DecidableEq

/-- State produced by NewWatcher: nothing closed yet. -/
def initCloseState : CloseState := ⟨false, false, 0⟩

/-- Result of one Watcher.Close call: the new state and whether the call
panicked (in Go, close on an already-closed channel panics). -/
structure CloseResult where
  state : CloseState
  panicked : Bool
deriving DecidableEq

/-- Watcher.Close (watcher.go lines 75-84), translated literally: under
closeMu, if isClosed is still false then closeCh is closed (which would
panic exactly if closeCh were already closed) and isClosed is set; the
guard makes the second call skip the close.  Afterwards the underlying
watcher's Close is always invoked. -/
def closeWatcher (s : CloseState) : CloseResult :=
  if !s.isClosed then
    { state :=
        { isClosed := true
          closeChClosed := true
          underlyingCloseCalls := s.underlyingCloseCalls + 1 }
      panicked := s.closeChClosed }
  else
    { state := { s with underlyingCloseCalls := s.underlyingCloseCalls + 1 }
      panicked := false }

/-- The three wakeup sources of debounceLoop's select. -/
inductive LoopInput where
  | closedSignal
  | rawEvent (e : Event)
  | rawError
deriving DecidableEq

/-- What one debounceLoop iteration does for each wakeup source. -/
inductive LoopAction where
  | stop
  | spawnHandler (e : Event)
  | forwardError
deriving DecidableEq

/-- debounceLoop (watcher.go lines 93-107): a closed closeCh makes the
loop return; a raw event spawns a handleEvent goroutine; a raw error is
forwarded to w.Errors. -/
def debounceLoopStep : LoopInput → LoopAction
  | .closedSignal => .stop
  | .rawEvent e => .spawnHandler e
  | .rawError => .forwardError

/-- Closed/open state of the two public sinks.  The only close statement
in the whole source is close(w.closeCh) inside Watcher.Close; w.Events
and w.Errors are only ever sent on. -/
structure SinkState where
  eventsClosed : Bool
  errorsClosed : Bool
deriving DecidableEq

/-- Whole-watcher state for the frame claims: shutdown state, sink
close flags, and the debounce map. -/
structure WatcherState where
  closeSt : CloseState
  sinks : SinkState
  tbl : DebounceMap
deriving DecidableEq

/-- State produced by NewWatcher: open sinks, empty map. -/
def initWatcherState : WatcherState := ⟨initCloseState, ⟨false, false⟩, []⟩

/-- The operations of the Watcher that run any code at all: Close, the
pass-through Add/Remove registrations, one handleEvent call, one
workerRecv step of a debounceFile goroutine, and one timeout arm of a
debounceFile goroutine. -/
inductive WatcherOp where
  | closeOp
  | addPath
  | removePath
  | handle (freshCh : Nat) (e : Event)
  | workerRecvOp (ignoreTemporaryFiles : Bool) (ch : Nat) (ev ne : Event)
  | workerTimeout (ev : Event)

/-- Effect of each Watcher operation on the whole-watcher state,
following the source: only Close touches the shutdown state, Add/Remove
touch nothing locally, and the dispatch/worker steps only rewrite the
debounce map; no operation writes the sink close flags, because no code
path closes w.Events or w.Errors. -/
def applyOp (s : WatcherState) : WatcherOp → WatcherState
  | .closeOp => { s with closeSt := (closeWatcher s.closeSt).state }
  | .addPath => s
  | .removePath => s
  | .handle fc e => { s with tbl := (handleEvent s.tbl fc e).tbl }
  | .workerRecvOp itf ch ev ne =>
      { s with tbl := stepTbl (workerRecv itf ch ev s.tbl ne) }
  | .workerTimeout ev => { s with tbl := mapDelete s.tbl ev.name }

/-- Gap condition for a timed arrival sequence: each arrival lands
strictly before the deadline armed at the previous wakeup, so the select
always takes the channel arm. -/
def withinChain (D now : Nat) : List (Nat × Event) → Bool
  | [] => true
  | (t, _) :: rest => decide (t < now + D) && withinChain D t rest

/-- Time of the last arrival of a timed sequence (now when empty). -/
def lastTime (now : Nat) : List (Nat × Event) → Nat
  | [] => now
  | (t, _) :: rest => lastTime t rest

/-- Sample path used by the concrete evaluations. -/
def pA : String := "a"

/-- Create event for the sample path. -/
def evA1 : Event := ⟨pA, opCreate⟩

/-- Write event for the sample path. -/
def evA2 : Event := ⟨pA, opWrite⟩

/-- Remove event for the sample path. -/
def evARem : Event := ⟨pA, opRemove⟩

/-- Rename event for the sample path. -/
def evARen : Event := ⟨pA, opRename⟩

/-- Chmod event for the sample path. -/
def evAChmod : Event := ⟨pA, opChmod⟩

/- Helper lemmas shared by the claim theorems. -/

/-- Deleting a key from the map really removes every binding of it. -/
theorem mapLookup_mapDelete_self (m : DebounceMap) (k : String) :
    mapLookup (mapDelete m k) k = none := by
  induction m with
  | nil => rfl
  | cons hd rest ih =>
    obtain ⟨k1, v1⟩ := hd
    by_cases h : k1 == k
    · simpa [mapDelete, h] using ih
    · simp [mapDelete, h, mapLookup, ih]

/-- A step on a worker whose buffered event has neither the Remove nor
the Rename bit drops the arriving event and continues unchanged. -/
theorem workerRecv_plain (itf : Bool) (ch : Nat) (e ne : Event)
    (tbl : DebounceMap) (h1 : hasOp e opRemove = false)
    (h2 : hasOp e opRename = false) :
    workerRecv itf ch e tbl ne = .continued e tbl := by
  simp [workerRecv, h1, h2]

/-- Unfolding lemma for debounceFile when an arrival wins the select and
the step continues. -/
theorem debounceFile_cons_continued (itf : Bool) (D ch : Nat)
    (e e2 ne : Event) (tbl tbl2 : DebounceMap) (now t : Nat)
    (rest : List (Nat × Event)) (ht : t < now + D)
    (hs : workerRecv itf ch e tbl ne = .continued e2 tbl2) :
    debounceFile itf D ch e tbl now ((t, ne) :: rest)
      = debounceFile itf D ch e2 tbl2 t rest := by
  simp only [debounceFile, if_pos ht, hs]

/-- Unfolding lemma for debounceFile when an arrival wins the select and
the step terminates the worker. -/
theorem debounceFile_cons_done (itf : Bool) (D ch : Nat) (e ne : Event)
    (tbl tbl2 : DebounceMap) (out : List Event) (now t : Nat)
    (rest : List (Nat × Event)) (ht : t < now + D)
    (hs : workerRecv itf ch e tbl ne = .done tbl2 out) :
    debounceFile itf D ch e tbl now ((t, ne) :: rest)
      = ⟨tbl2, out, t, e.name⟩ := by
  simp only [debounceFile, if_pos ht, hs]

/-- C1: evaluation of debounceFile at the failing input.  A worker
started by Create(a) at time 0 with DebounceDuration 10 receives
Remove(a) on its channel at time 5.  Because the source tests the bits
of the buffered event instead of the arriving one, the Remove is
dropped: with IgnoreTemporaryFiles true the run still emits the original
Create at time 15 (one settled event instead of zero), and with
IgnoreTemporaryFiles false it also emits the Create at time 15 instead
of the Remove immediately at time 5. -/
theorem c1_remove_is_ignored_code_bug :
    debounceFile true 10 0 evA1 [(pA, 0)] 0 [(5, evARem)]
      = ⟨[], [evA1], 15, pA⟩
    ∧ debounceFile false 10 0 evA1 [(pA, 0)] 0 [(5, evARem)]
      = ⟨[], [evA1], 15, pA⟩
    ∧ evA1 ≠ evARem := by decide

/-- C2 counterexample: a worker started by Create(a) that receives
Write(a) at time 5 within the window emits the ORIGINAL Create payload,
not the newest event, so the claimed latest-write-wins replacement of
the representative event is false on the code. -/
theorem c2_payload_counterexample :
    (debounceFile true 10 0 evA1 [(pA, 0)] 0 [(5, evA2)]).emitted = [evA1]
    ∧ evA1 ≠ evA2 := by decide

/-- C2 amended: each subsequent event for the path keeps the worker
pending and restarts the timer from zero, but the buffered
representative event is NOT replaced: for any arrival chain in which
every arrival lands within DebounceDuration of the previous wakeup, the
run emits exactly one settled event, at lastArrival + DebounceDuration,
and its payload is the FIRST event (the one that spawned the worker). -/
theorem c2_coalesce_first_event_wins (itf : Bool) (D ch : Nat) (e : Event)
    (tbl : DebounceMap) (now : Nat) (arrivals : List (Nat × Event))
    (h1 : hasOp e opRemove = false) (h2 : hasOp e opRename = false)
    (h3 : withinChain D now arrivals = true) :
    debounceFile itf D ch e tbl now arrivals
      = ⟨mapDelete tbl e.name, [e], lastTime now arrivals + D, e.name⟩ := by
  induction arrivals generalizing now with
  | nil => rfl
  | cons hd rest ih =>
    obtain ⟨t, ne⟩ := hd
    simp only [withinChain, Bool.and_eq_true, decide_eq_true_eq] at h3
    obtain ⟨ht, hchain⟩ := h3
    rw [debounceFile_cons_continued itf D ch e e ne tbl tbl now t rest ht
      (workerRecv_plain itf ch e ne tbl h1 h2)]
    simpa [lastTime] using ih t hchain

/-- C2 witness: the amended coalescing theorem applied to a Create at
time 0 followed by two Writes at times 3 and 6, DebounceDuration 10. -/
theorem c2_coalesce_first_event_wins_witness :
    debounceFile true 10 0 evA1 [(pA, 0)] 0 [(3, evA2), (6, evA2)]
      = ⟨mapDelete [(pA, 0)] evA1.name, [evA1],
          lastTime 0 [(3, evA2), (6, evA2)] + 10, evA1.name⟩ :=
  c2_coalesce_first_event_wins true 10 0 evA1 [(pA, 0)] 0
    [(3, evA2), (6, evA2)] (by decide) (by decide) (by decide)

/-- C3 counterexample: a pending worker whose buffered event is a plain
Create receives a Rename for its path; the step result is continued with
the buffered event and the debounce map both unchanged — the worker does
not terminate, does not delete its entry, and the rename is simply
dropped (the source tests the buffered event's bits, not the arriving
event's). -/
theorem c3_rename_counterexample :
    workerRecv true 0 evA1 [(pA, 0)] evARen = .continued evA1 [(pA, 0)]
    ∧ mapLookup [(pA, 0)] evARen.name = some 0 := by decide

/-- C3 amended: a rename never terminates the worker.  Whenever the
buffered event lacks the Remove bit, a received event yields a continued
(still pending) step; and when the buffered event also lacks the Rename
bit — the state every worker is spawned in — the arriving event is
dropped entirely, leaving the buffered event and the table untouched, so
no entry is deleted and nothing is emitted for the rename. -/
theorem c3_rename_never_terminates (itf : Bool) (ch : Nat) (e ne : Event)
    (tbl : DebounceMap) (h1 : hasOp e opRemove = false) :
    StepResult.isDone (workerRecv itf ch e tbl ne) = false
    ∧ (hasOp e opRename = true
        ∨ workerRecv itf ch e tbl ne = .continued e tbl) := by
  by_cases h2 : hasOp e opRename
  · constructor
    · simp [workerRecv, h1, h2]
      by_cases h3 : hasOp e opCreate <;> simp [h3, StepResult.isDone]
    · exact Or.inl h2
  · rw [workerRecv_plain itf ch e ne tbl h1 (by simpa using h2)]
    exact ⟨rfl, Or.inr rfl⟩

/-- C3 witness: the amended rename theorem applied to a worker buffering
a plain Create that receives a Rename. -/
theorem c3_rename_never_terminates_witness :
    StepResult.isDone (workerRecv true 0 evA1 [(pA, 0)] evARen) = false
    ∧ (hasOp evA1 opRename = true
        ∨ workerRecv true 0 evA1 [(pA, 0)] evARen
            = .continued evA1 [(pA, 0)]) :=
  c3_rename_never_terminates true 0 evA1 evARen [(pA, 0)] (by decide)

/-- handleEvent on a Create for a path absent from the map inserts a
fresh entry and spawns a new debounceFile worker. -/
theorem handleEvent_create_absent_spawns (tbl : DebounceMap) (fc : Nat)
    (p : String) (h : mapLookup tbl p = none) :
    (handleEvent tbl fc ⟨p, opCreate⟩).spawned = some (⟨p, opCreate⟩, fc) := by
  have hc : (hasOp ⟨p, opCreate⟩ opWrite || hasOp ⟨p, opCreate⟩ opCreate)
      = true := by simp [hasOp, opWrite, opCreate]
  simp [handleEvent, hc, h]

/-- Core run invariant of a debounceFile worker: over its whole lifetime
it publishes at most one event on w.Events, and the map it leaves behind
has no binding for the path whose entry it deleted on exit. -/
theorem debounceFile_emit_clean (arrivals : List (Nat × Event)) :
    ∀ (itf : Bool) (D ch : Nat) (e : Event) (tbl : DebounceMap) (now : Nat),
    (debounceFile itf D ch e tbl now arrivals).emitted.length ≤ 1
    ∧ mapLookup (debounceFile itf D ch e tbl now arrivals).tbl
        (debounceFile itf D ch e tbl now arrivals).finalName = none := by
  induction arrivals with
  | nil =>
    intro itf D ch e tbl now
    exact ⟨by simp [debounceFile],
      by simpa [debounceFile] using mapLookup_mapDelete_self tbl e.name⟩
  | cons hd rest ih =>
    intro itf D ch e tbl now
    obtain ⟨t, ne⟩ := hd
    by_cases ht : t < now + D
    · by_cases hrem : hasOp e opRemove
      · have hs : workerRecv itf ch e tbl ne
            = .done (mapDelete tbl e.name) (if !itf then [ne] else []) := by
          simp [workerRecv, hrem]
        rw [debounceFile_cons_done itf D ch e ne tbl _ _ now t rest ht hs]
        refine ⟨?_, by simpa using mapLookup_mapDelete_self tbl e.name⟩
        cases itf <;> simp
      · by_cases hren : hasOp e opRename
        · by_cases hcr : hasOp e opCreate
          · have hs : workerRecv itf ch e tbl ne
                = .continued { e with name := ne.name }
                    (mapInsert (mapDelete tbl e.name) ne.name ch) := by
              simp [workerRecv, hrem, hren, hcr]
            rw [debounceFile_cons_continued itf D ch e _ ne tbl _ now t rest
              ht hs]
            exact ih itf D ch _ _ t
          · have hs : workerRecv itf ch e tbl ne
                = .continued ne
                    (mapInsert (mapDelete tbl e.name) ne.name ch) := by
              simp [workerRecv, hrem, hren, hcr]
            rw [debounceFile_cons_continued itf D ch e _ ne tbl _ now t rest
              ht hs]
            exact ih itf D ch _ _ t
        · rw [debounceFile_cons_continued itf D ch e e ne tbl tbl now t rest
            ht (workerRecv_plain itf ch e ne tbl (by simpa using hrem)
              (by simpa using hren))]
          exact ih itf D ch e tbl t
    · simp only [debounceFile, if_neg ht]
      exact ⟨by simp,
        by simpa using mapLookup_mapDelete_self tbl e.name⟩

/-- C4: across any run, a debounceFile worker publishes at most one
settled event; the map it leaves behind contains no entry for the path
it cleaned up on exit; and a subsequent Create for that path spawns a
fresh worker (a fresh debounce window) rather than reusing stale state. -/
theorem c4_single_emission_and_cleanup (itf : Bool) (D ch : Nat) (e : Event)
    (tbl : DebounceMap) (now : Nat) (arrivals : List (Nat × Event))
    (fc : Nat) :
    (debounceFile itf D ch e tbl now arrivals).emitted.length ≤ 1
    ∧ mapLookup (debounceFile itf D ch e tbl now arrivals).tbl
        (debounceFile itf D ch e tbl now arrivals).finalName = none
    ∧ (handleEvent (debounceFile itf D ch e tbl now arrivals).tbl fc
          ⟨(debounceFile itf D ch e tbl now arrivals).finalName, opCreate⟩).spawned
        = some
            (⟨(debounceFile itf D ch e tbl now arrivals).finalName, opCreate⟩,
              fc) := by
  obtain ⟨h1, h2⟩ := debounceFile_emit_clean arrivals itf D ch e tbl now
  exact ⟨h1, h2, handleEvent_create_absent_spawns _ fc _ h2⟩

/-- C5 counterexample: a Create event for a path that already has a
worker makes handleEvent send on that worker's inbound channel between
Lock and Unlock — the debounce map mutex IS held across the channel
send, contrary to the claim. -/
theorem c5_send_under_lock_counterexample :
    sendUnderLock (handleEvent [(pA, 7)] 9 evA1).trace false = true
    ∧ (hasOp evA1 opWrite || hasOp evA1 opCreate) = true
    ∧ (mapLookup [(pA, 7)] evA1.name).isSome = true := by decide

/-- C5 amended: the mutex is held across a send in exactly one place —
when handleEvent forwards a Create/Write to an already-present worker;
the non-Create/Write dispatch paths and both arms of the worker
(receive handling and timeout emission) never send or emit while the
lock is held. -/
theorem c5_lock_discipline_amended (tbl : DebounceMap) (fc : Nat)
    (e ev : Event) (itf : Bool) :
    sendUnderLock (handleEvent tbl fc e).trace false
      = ((hasOp e opWrite || hasOp e opCreate)
          && (mapLookup tbl e.name).isSome)
    ∧ sendUnderLock (workerRecvTrace itf ev) false = false
    ∧ sendUnderLock workerTimeoutTrace false = false := by
  refine ⟨?_, ?_, rfl⟩
  · by_cases hc : (hasOp e opWrite || hasOp e opCreate)
    · cases hv : mapLookup tbl e.name <;>
        simp [handleEvent, hc, hv, sendUnderLock]
    · cases hv : mapLookup tbl e.name <;>
        simp [handleEvent, hc, hv, sendUnderLock]
  · by_cases hrem : hasOp ev opRemove
    · cases itf <;> simp [workerRecvTrace, hrem, sendUnderLock]
    · by_cases hren : hasOp ev opRename <;>
        simp [workerRecvTrace, hrem, hren, sendUnderLock]

/-- C6 counterexample: two same-path raw events arriving as Create(a)
then Write(a) admit the swapped handler schedule (a permutation of the
arrival order, as nothing orders the per-event handleEvent goroutines),
under which the worker observes the path's events in the reversed
order — so the claimed in-order observation does not hold on the code. -/
theorem c6_order_counterexample :
    handlerSchedule [evA1, evA2] [evA2, evA1]
    ∧ eventsForPath pA [evA2, evA1] ≠ eventsForPath pA [evA1, evA2] := by
  constructor
  · exact List.Perm.swap evA1 evA2 []
  · decide

/-- C6 amended: per-path delivery is only guaranteed up to permutation:
under any handler schedule (any permutation of the arrival order, since
debounceLoop hands each raw event to its own goroutine), the events a
path's worker observes are a permutation of the raw events for that
path — the set of events is preserved, their order is not. -/
theorem c6_perpath_permutation (raw sched : List Event) (p : String)
    (h : handlerSchedule raw sched) :
    List.Perm (eventsForPath p sched) (eventsForPath p raw) := by
  simpa [eventsForPath] using
    List.Perm.filter (fun e : Event => e.name == p) h

/-- C6 witness: the permutation guarantee applied to the swapped
schedule of Create(a) then Write(a). -/
theorem c6_perpath_permutation_witness :
    List.Perm (eventsForPath pA [evA2, evA1])
      (eventsForPath pA [evA1, evA2]) :=
  c6_perpath_permutation [evA1, evA2] [evA2, evA1] pA
    (List.Perm.swap evA1 evA2 [])

/-- C7: a raw event with neither the Create nor the Write bit, for a
path with no debounce map entry, is published directly and immediately
on w.Events after the lock is released: the map is unchanged, no worker
is spawned, no channel send happens, and the trace is
lock/unlock/emit. -/
theorem c7_passthrough_direct_emit (tbl : DebounceMap) (fc : Nat)
    (e : Event) (h1 : hasOp e opWrite = false)
    (h2 : hasOp e opCreate = false)
    (h3 : mapLookup tbl e.name = none) :
    handleEvent tbl fc e
      = ⟨tbl, none, none, [e], [.lock, .unlock, .emitEvent]⟩ := by
  simp [handleEvent, h1, h2, h3]

/-- C7 witness: a Chmod event on an idle path passes straight through. -/
theorem c7_passthrough_direct_emit_witness :
    handleEvent [] 5 evAChmod
      = ⟨[], none, none, [evAChmod], [.lock, .unlock, .emitEvent]⟩ :=
  c7_passthrough_direct_emit [] 5 evAChmod (by decide) (by decide)
    (by decide)

/-- C8 counterexample: a Chmod arriving at time 8 inside a
DebounceDuration-10 window DOES reset the timer: the run with the Chmod
settles at time 18, while the run without it settles at time 10 — every
received event re-arms the worker's time.After, including unrecognized
operations. -/
theorem c8_timer_reset_counterexample :
    (debounceFile true 10 0 evA1 [(pA, 0)] 0 [(8, evAChmod)]).endTime = 18
    ∧ (debounceFile true 10 0 evA1 [(pA, 0)] 0 []).endTime = 10 := by decide

/-- C8 amended: an event reaching a pending worker whose buffered event
carries neither the Remove nor the Rename bit is absorbed without
terminating the worker and without changing the buffered representative
event or the map — but it does restart the debounce timer: the run
continues exactly as if the worker had been (re)armed at the arrival
time. -/
theorem c8_ignored_but_timer_reset (itf : Bool) (D ch now t : Nat)
    (e ne : Event) (tbl : DebounceMap) (rest : List (Nat × Event))
    (h1 : hasOp e opRemove = false) (h2 : hasOp e opRename = false)
    (h3 : t < now + D) :
    workerRecv itf ch e tbl ne = .continued e tbl
    ∧ debounceFile itf D ch e tbl now ((t, ne) :: rest)
        = debounceFile itf D ch e tbl t rest := by
  have hs := workerRecv_plain itf ch e ne tbl h1 h2
  exact ⟨hs, debounceFile_cons_continued itf D ch e e ne tbl tbl now t rest
    h3 hs⟩

/-- C8 witness: the amended theorem applied to a Chmod arriving at time
8 in a window of 10 armed at time 0. -/
theorem c8_ignored_but_timer_reset_witness :
    workerRecv true 0 evA1 [(pA, 0)] evAChmod = .continued evA1 [(pA, 0)]
    ∧ debounceFile true 10 0 evA1 [(pA, 0)] 0 ((8, evAChmod) :: [])
        = debounceFile true 10 0 evA1 [(pA, 0)] 8 [] :=
  c8_ignored_but_timer_reset true 10 0 0 8 evA1 evAChmod [(pA, 0)] []
    (by decide) (by decide) (by decide)

/-- C9: Close is idempotent.  From the state NewWatcher builds, the
first Close does not panic, closes closeCh (the stop signal the
debounceLoop select turns into a return), and calls the underlying
watcher's Close; the second Close does not panic either, leaves the
shutdown signal exactly as the first call left it, and still calls the
underlying Close. -/
theorem c9_close_idempotent :
    (closeWatcher initCloseState).panicked = false
    ∧ (closeWatcher initCloseState).state.closeChClosed = true
    ∧ (closeWatcher initCloseState).state.underlyingCloseCalls = 1
    ∧ (closeWatcher (closeWatcher initCloseState).state).panicked = false
    ∧ (closeWatcher (closeWatcher initCloseState).state).state.isClosed
        = (closeWatcher initCloseState).state.isClosed
    ∧ (closeWatcher (closeWatcher initCloseState).state).state.closeChClosed
        = (closeWatcher initCloseState).state.closeChClosed
    ∧ (closeWatcher
          (closeWatcher initCloseState).state).state.underlyingCloseCalls
        = 2
    ∧ debounceLoopStep LoopInput.closedSignal = LoopAction.stop := by decide

/-- Every Watcher operation leaves the sink close flags untouched: no
code path closes w.Events or w.Errors. -/
theorem applyOp_sinks (s : WatcherState) (op : WatcherOp) :
    (applyOp s op).sinks = s.sinks := by
  cases op <;> rfl

/-- Folding any operation sequence over a state never changes the sink
close flags. -/
theorem foldl_applyOp_sinks (ops : List WatcherOp) :
    ∀ s : WatcherState, (ops.foldl applyOp s).sinks = s.sinks := by
  induction ops with
  | nil => intro s; rfl
  | cons op rest ih =>
    intro s
    rw [List.foldl_cons, ih, applyOp_sinks]

/-- C10: after any sequence of Watcher operations (Close included,
called any number of times), the public Events and Errors channels are
still open — the Watcher never closes them, so a consumer receive after
Close blocks (or gets a pending worker's event) rather than yielding the
closed-channel zero value. -/
theorem c10_sinks_never_closed (ops : List WatcherOp) :
    (ops.foldl applyOp initWatcherState).sinks.eventsClosed = false
    ∧ (ops.foldl applyOp initWatcherState).sinks.errorsClosed = false := by
  rw [foldl_applyOp_sinks ops initWatcherState]
  exact ⟨rfl, rfl⟩
